import Mathlib

/-!
Shallow embedding of the blog backend (Django/DRF app `default`):
models (`models.py`), serializers and field validators (`serializers.py`),
and the four endpoint handlers (`views.py`), together with the framework
dispatch order that the views rely on (view-level permission check, then
object lookup, then object-level permission check).

Timestamps are modelled as natural numbers; the database is a `Store`
record of user, post and comment rows plus the id sequences.  Each
endpoint handler is a pure function from a store, a requester
(`Option Nat`, `none` = anonymous), a method and a parsed request body to
an HTTP response paired with the resulting store.
-/

namespace Blog

/-- `django.contrib.auth.models.User`, restricted to the fields the
serializers expose (`id`, `username`, `email`). -/
structure User where
  id : Nat
  username : String
  email : String
deriving Repr, DecidableEq

/-- `models.Post`: title, content, author FK, `created_at` (auto_now_add),
`updated_at` (auto_now). -/
structure Post where
  id : Nat
  title : String
  content : String
  author : Nat
  created_at : Nat
  updated_at : Nat
deriving Repr, DecidableEq

/-- `models.Comment`: post FK (CASCADE), author FK, content, `created_at`
(auto_now_add).  No `updated_at` field exists. -/
structure Comment where
  id : Nat
  post : Nat
  author : Nat
  content : String
  created_at : Nat
deriving Repr, DecidableEq

/-- The relational store: the three tables plus the id sequences used for
newly inserted rows. -/
structure Store where
  users : List User
  posts : List Post
  comments : List Comment
  nextPostId : Nat
  nextCommentId : Nat
deriving Repr, DecidableEq

def findUser (s : Store) (uid : Nat) : Option User :=
  s.users.find? (fun u => u.id == uid)

def findPost (s : Store) (pid : Nat) : Option Post :=
  s.posts.find? (fun p => p.id == pid)

def findComment (s : Store) (cid : Nat) : Option Comment :=
  s.comments.find? (fun c => c.id == cid)

/-! ### Field validators (`serializers.py`) -/

def titleMinMsg : String := "제목은 최소 2글자 이상이어야 합니다."

def contentMinMsg : String := "내용은 최소 5글자 이상이어야 합니다."

def commentMinMsg : String := "댓글 내용은 최소 2글자 이상이어야 합니다."

def requiredMsg : String := "This field is required."

/-- Python's `str.strip()`: drop leading and trailing whitespace,
modelled on the string's character list. -/
def pyStrip (v : String) : String :=
  String.mk
    (((v.data.dropWhile Char.isWhitespace).reverse.dropWhile Char.isWhitespace).reverse)

/-- `PostCreateUpdateSerializer.validate_title`. -/
def validate_title (value : String) : Except String String :=
  if (pyStrip value).length < 2 then Except.error titleMinMsg else Except.ok value

/-- `PostCreateUpdateSerializer.validate_content`. -/
def validate_content (value : String) : Except String String :=
  if (pyStrip value).length < 5 then Except.error contentMinMsg else Except.ok value

/-- `CommentCreateSerializer.validate_content`. -/
def validate_comment_content (value : String) : Except String String :=
  if (pyStrip value).length < 2 then Except.error commentMinMsg else Except.ok value

/-! ### Request bodies

Parsed JSON bodies.  Keys the serializers do not declare in `Meta.fields`
(`author` on both, `post` and `created_at` on comments) are carried so
that theorems can state that the handlers ignore them. -/

structure PostBody where
  title : Option String := none
  content : Option String := none
  author : Option Nat := none
deriving Repr, DecidableEq

structure CommentBody where
  content : Option String := none
  author : Option Nat := none
  post : Option Nat := none
  created_at : Option Nat := none
deriving Repr, DecidableEq

def blankMsg : String := "This field may not be blank."

def titleMaxMsg : String := "Ensure this field has no more than 200 characters."

/-- The `title` field as the `ModelSerializer` builds it from
`models.CharField(max_length=200)`: required check, blank check,
`trim_whitespace=True` strip in `to_internal_value`, the model-derived
`max_length=200` validator on the trimmed value, then the serializer's
`validate_title` hook on the trimmed value. -/
def runTitleField (v : Option String) : Except (String × String) String :=
  match v with
  | none => Except.error ("title", requiredMsg)
  | some x =>
    if (pyStrip x).length = 0 then Except.error ("title", blankMsg)
    else if 200 < (pyStrip x).length then Except.error ("title", titleMaxMsg)
    else
      match validate_title (pyStrip x) with
      | Except.error m => Except.error ("title", m)
      | Except.ok w => Except.ok w

/-- A `models.TextField`-derived serializer field (post and comment
`content`): required check, blank check, `trim_whitespace=True` strip,
then the serializer's `validate_<field>` hook on the trimmed value (no
model-derived `max_length`). -/
def runContentField (name : String) (v : Option String)
    (hook : String → Except String String) : Except (String × String) String :=
  match v with
  | none => Except.error (name, requiredMsg)
  | some x =>
    if (pyStrip x).length = 0 then Except.error (name, blankMsg)
    else
      match hook (pyStrip x) with
      | Except.error m => Except.error (name, m)
      | Except.ok w => Except.ok w

/-- `PostCreateUpdateSerializer.is_valid` (fields `title`, `content`; all
field errors are reported simultaneously, keyed by field name). -/
def postSerializerRun (b : PostBody) :
    Except (List (String × String)) (String × String) :=
  match runTitleField b.title,
        runContentField "content" b.content validate_content with
  | Except.ok t, Except.ok c => Except.ok (t, c)
  | Except.error e, Except.ok _ => Except.error [e]
  | Except.ok _, Except.error e => Except.error [e]
  | Except.error e1, Except.error e2 => Except.error [e1, e2]

/-- `CommentCreateSerializer.is_valid` (single field `content`). -/
def commentSerializerRun (b : CommentBody) :
    Except (List (String × String)) String :=
  match runContentField "content" b.content validate_comment_content with
  | Except.ok c => Except.ok c
  | Except.error e => Except.error [e]

/-- Partial (PATCH) variant of the title field: an absent key is
skipped, a present one runs the full field pipeline. -/
def runTitleFieldOpt (v : Option String) :
    Except (String × String) (Option String) :=
  match v with
  | none => Except.ok none
  | some x => (runTitleField (some x)).map some

/-- Partial (PATCH) variant of a content field. -/
def runContentFieldOpt (name : String) (v : Option String)
    (hook : String → Except String String) :
    Except (String × String) (Option String) :=
  match v with
  | none => Except.ok none
  | some x => (runContentField name (some x) hook).map some

/-- `PostCreateUpdateSerializer.is_valid` with `partial=True` (PATCH). -/
def postSerializerRunOpt (b : PostBody) :
    Except (List (String × String)) (Option String × Option String) :=
  match runTitleFieldOpt b.title,
        runContentFieldOpt "content" b.content validate_content with
  | Except.ok t, Except.ok c => Except.ok (t, c)
  | Except.error e, Except.ok _ => Except.error [e]
  | Except.ok _, Except.error e => Except.error [e]
  | Except.error e1, Except.error e2 => Except.error [e1, e2]

/-! ### Output serializers (representations) -/

/-- `UserSerializer`: `{id, username, email}`. -/
structure UserRepr where
  id : Nat
  username : String
  email : String
deriving Repr, DecidableEq

def userRepr (s : Store) (uid : Nat) : Option UserRepr :=
  (findUser s uid).map (fun u => ⟨u.id, u.username, u.email⟩)

/-- `CommentSerializer`: `{id, content, author, created_at}` with nested
author summary. -/
structure CommentRepr where
  id : Nat
  content : String
  author : Option UserRepr
  created_at : Nat
deriving Repr, DecidableEq

def commentRepr (s : Store) (c : Comment) : CommentRepr :=
  ⟨c.id, c.content, userRepr s c.author, c.created_at⟩

/-- `PostListSerializer`:
`{id, title, author, created_at, updated_at, comments_count}`. -/
structure PostListRepr where
  id : Nat
  title : String
  author : Option UserRepr
  created_at : Nat
  updated_at : Nat
  comments_count : Nat
deriving Repr, DecidableEq

/-- `PostDetailSerializer`:
`{id, title, content, author, created_at, updated_at, comments}`. -/
structure PostDetailRepr where
  id : Nat
  title : String
  content : String
  author : Option UserRepr
  created_at : Nat
  updated_at : Nat
  comments : List CommentRepr
deriving Repr, DecidableEq

/-! ### Default orderings (`Meta.ordering`) -/

/-- `Post.Meta.ordering = ['-created_at']` (newest first). -/
def postOrder (a b : Post) : Prop := b.created_at ≤ a.created_at

instance : DecidableRel postOrder := fun a b => Nat.decLe b.created_at a.created_at

instance : IsTotal Post postOrder :=
  ⟨fun a b => Nat.le_total b.created_at a.created_at⟩

instance : IsTrans Post postOrder :=
  ⟨fun _ _ _ h1 h2 => Nat.le_trans h2 h1⟩

/-- `Comment.Meta.ordering = ['created_at']` (oldest first). -/
def commentOrder (a b : Comment) : Prop := a.created_at ≤ b.created_at

instance : DecidableRel commentOrder := fun a b => Nat.decLe a.created_at b.created_at

instance : IsTotal Comment commentOrder :=
  ⟨fun a b => Nat.le_total a.created_at b.created_at⟩

instance : IsTrans Comment commentOrder :=
  ⟨fun _ _ _ h1 h2 => Nat.le_trans h1 h2⟩

/-- `Post.objects.all()` under the model's default ordering. -/
def postsOrdered (s : Store) : List Post :=
  s.posts.insertionSort postOrder

/-- `post.comments.all()` (the related manager) under the comment model's
default ordering. -/
def commentsOfPost (s : Store) (pid : Nat) : List Comment :=
  (s.comments.filter (fun c => c.post == pid)).insertionSort commentOrder

def postListRepr (s : Store) (p : Post) : PostListRepr :=
  ⟨p.id, p.title, userRepr s p.author, p.created_at, p.updated_at,
    (s.comments.filter (fun c => c.post == p.id)).length⟩

def postDetailRepr (s : Store) (p : Post) : PostDetailRepr :=
  ⟨p.id, p.title, p.content, userRepr s p.author, p.created_at, p.updated_at,
    (commentsOfPost s p.id).map (commentRepr s)⟩

/-! ### HTTP surface -/

inductive Method where
  | GET
  | POST
  | PUT
  | PATCH
  | DELETE
deriving Repr, DecidableEq

/-- `permissions.SAFE_METHODS` restricted to the verbs that can reach these
views (HEAD/OPTIONS are handled identically to GET by the framework). -/
def Method.isSafe : Method → Bool
  | Method.GET => true
  | _ => false

/-- Response bodies, one constructor per serializer output shape plus the
framework's `{"detail": ...}` and the view's `{"error": ...}` payloads.
`createData` is `serializer.data` of the create/update serializer: an
association list of its declared fields. -/
inductive RespBody where
  | empty
  | postList (items : List PostListRepr)
  | postDetail (p : PostDetailRepr)
  | createData (fields : List (String × String))
  | commentList (items : List CommentRepr)
  | commentData (c : CommentRepr)
  | fieldErrors (errs : List (String × String))
  | detailMsg (m : String)
  | errorMsg (m : String)
deriving Repr, DecidableEq

/-- Does the body have the shape of the full post detail representation
(`PostDetailSerializer`), as the spec's endpoint table promises for
creation? -/
def RespBody.isFullPostDetail : RespBody → Bool
  | RespBody.postDetail _ => true
  | _ => false

structure Response where
  status : Nat
  body : RespBody
deriving Repr, DecidableEq

def notAuthMsg : String := "Authentication credentials were not provided."

def permDeniedMsg : String := "You do not have permission to perform this action."

def notFoundMsg : String := "Not found."

def ownerOnlyMsg : String := "댓글 작성자만 수정/삭제할 수 있습니다."

/-! ### Endpoint handlers (`views.py`)

The framework's dispatch order is part of the embedding: view-level
permission classes run before the handler (and hence before any object
lookup); object-level permission classes run after the lookup. -/

/-- `PostListCreateView` (`ListCreateAPIView`,
`IsAuthenticatedOrReadOnly`): GET lists all posts newest-first with
`PostListSerializer`; POST validates with `PostCreateUpdateSerializer`,
saves with `author=request.user` (`perform_create`), and answers 201 with
that serializer's data (fields `title`, `content`). -/
def postListCreateView (s : Store) (requester : Option Nat) (m : Method)
    (body : PostBody) (now : Nat) : Response × Store :=
  if m.isSafe || requester.isSome then
    match m, requester with
    | Method.GET, _ =>
      (⟨200, RespBody.postList ((postsOrdered s).map (postListRepr s))⟩, s)
    | Method.POST, none => (⟨403, RespBody.detailMsg notAuthMsg⟩, s)
    | Method.POST, some u =>
      match postSerializerRun body with
      | Except.error errs => (⟨400, RespBody.fieldErrors errs⟩, s)
      | Except.ok (t, c) =>
        let p : Post := ⟨s.nextPostId, t, c, u, now, now⟩
        (⟨201, RespBody.createData [("title", t), ("content", c)]⟩,
          { s with posts := s.posts ++ [p], nextPostId := s.nextPostId + 1 })
    | _, _ => (⟨405, RespBody.empty⟩, s)
  else (⟨403, RespBody.detailMsg notAuthMsg⟩, s)

def replacePost (s : Store) (p' : Post) : Store :=
  { s with posts := s.posts.map (fun q => if q.id == p'.id then p' else q) }

/-- Dispatch chain for the mutating verbs of `PostDetailView`
(`get_permissions` returns `[IsAuthenticated(), IsAuthorOrReadOnly()]`):
view-level `IsAuthenticated` (403) → object lookup (404) → object-level
`IsAuthorOrReadOnly` (403), then the verb's handler `k`. -/
def postMutateGate (s : Store) (requester : Option Nat) (pid : Nat)
    (k : Nat → Post → Response × Store) : Response × Store :=
  match requester with
  | none => (⟨403, RespBody.detailMsg notAuthMsg⟩, s)
  | some u =>
    match findPost s pid with
    | none => (⟨404, RespBody.detailMsg notFoundMsg⟩, s)
    | some p =>
      if p.author == u then k u p
      else (⟨403, RespBody.detailMsg permDeniedMsg⟩, s)

/-- `PostDetailView` (`RetrieveUpdateDestroyAPIView`): GET returns the
full detail; PUT/PATCH validate with `PostCreateUpdateSerializer` and
refresh `updated_at` (`auto_now`); DELETE removes the post and, by the
`on_delete=CASCADE` of `Comment.post`, all its comments. -/
def postDetailView (s : Store) (requester : Option Nat) (m : Method)
    (pid : Nat) (body : PostBody) (now : Nat) : Response × Store :=
  match m with
  | Method.GET =>
    match findPost s pid with
    | none => (⟨404, RespBody.detailMsg notFoundMsg⟩, s)
    | some p => (⟨200, RespBody.postDetail (postDetailRepr s p)⟩, s)
  | Method.PUT =>
    postMutateGate s requester pid (fun _ p =>
      match postSerializerRun body with
      | Except.error errs => (⟨400, RespBody.fieldErrors errs⟩, s)
      | Except.ok (t, c) =>
        let p' : Post := { p with title := t, content := c, updated_at := now }
        (⟨200, RespBody.createData [("title", t), ("content", c)]⟩,
          replacePost s p'))
  | Method.PATCH =>
    postMutateGate s requester pid (fun _ p =>
      match postSerializerRunOpt body with
      | Except.error errs => (⟨400, RespBody.fieldErrors errs⟩, s)
      | Except.ok (t, c) =>
        let p' : Post := { p with title := t.getD p.title,
                                  content := c.getD p.content, updated_at := now }
        (⟨200, RespBody.createData [("title", p'.title), ("content", p'.content)]⟩,
          replacePost s p'))
  | Method.DELETE =>
    postMutateGate s requester pid (fun _ p =>
      (⟨204, RespBody.empty⟩,
        { s with posts := s.posts.filter (fun q => q.id != p.id),
                 comments := s.comments.filter (fun c => c.post != p.id) }))
  | Method.POST =>
    match requester with
    | none => (⟨403, RespBody.detailMsg notAuthMsg⟩, s)
    | some _ => (⟨405, RespBody.empty⟩, s)

/-- `post_comments` (`@api_view(['GET', 'POST'])`,
`IsAuthenticatedOrReadOnly`): the permission check runs before the view
body, so an anonymous POST is rejected before the post lookup; an
unrouted verb is answered 405 after the permission check but still
before the view body (hence before the lookup).  Inside the body,
`get_object_or_404(Post, id=post_id)` then GET lists the post's comments
oldest-first and POST creates `Comment` with
`author=request.user, post=post`. -/
def post_comments (s : Store) (requester : Option Nat) (m : Method)
    (post_id : Nat) (body : CommentBody) (now : Nat) : Response × Store :=
  if m.isSafe || requester.isSome then
    match m with
    | Method.GET =>
      match findPost s post_id with
      | none => (⟨404, RespBody.detailMsg notFoundMsg⟩, s)
      | some p =>
        (⟨200, RespBody.commentList ((commentsOfPost s p.id).map (commentRepr s))⟩, s)
    | Method.POST =>
      match findPost s post_id with
      | none => (⟨404, RespBody.detailMsg notFoundMsg⟩, s)
      | some p =>
        match requester with
        | none => (⟨403, RespBody.detailMsg notAuthMsg⟩, s)
        | some u =>
          match commentSerializerRun body with
          | Except.error errs => (⟨400, RespBody.fieldErrors errs⟩, s)
          | Except.ok v =>
            let c : Comment := ⟨s.nextCommentId, p.id, u, v, now⟩
            let s' : Store := { s with comments := s.comments ++ [c],
                                       nextCommentId := s.nextCommentId + 1 }
            (⟨201, RespBody.commentData (commentRepr s' c)⟩, s')
    | _ => (⟨405, RespBody.empty⟩, s)
  else (⟨403, RespBody.detailMsg notAuthMsg⟩, s)

/-- Body of `comment_detail`, reached only after the framework's
`IsAuthenticated` check: `get_object_or_404(Comment, id=comment_id)`,
then the shared ownership check (before any verb dispatch), then PUT
(validate, save, return `CommentSerializer` data) or DELETE. -/
def commentDetailBody (s : Store) (u : Nat) (m : Method) (comment_id : Nat)
    (body : CommentBody) : Response × Store :=
  match findComment s comment_id with
  | none => (⟨404, RespBody.detailMsg notFoundMsg⟩, s)
  | some c =>
    if c.author != u then (⟨403, RespBody.errorMsg ownerOnlyMsg⟩, s)
    else
      match m with
      | Method.PUT =>
        match commentSerializerRun body with
        | Except.error errs => (⟨400, RespBody.fieldErrors errs⟩, s)
        | Except.ok v =>
          let c' : Comment := { c with content := v }
          let s' : Store :=
            { s with comments := s.comments.map (fun q => if q.id == c.id then c' else q) }
          (⟨200, RespBody.commentData (commentRepr s' c')⟩, s')
      | Method.DELETE =>
        (⟨204, RespBody.empty⟩,
          { s with comments := s.comments.filter (fun q => q.id != c.id) })
      | _ => (⟨405, RespBody.empty⟩, s)

/-- `comment_detail` (`@api_view(['PUT', 'DELETE'])`,
`@permission_classes([IsAuthenticated])`): the authentication check runs
before the view body (hence before the lookup); unrouted verbs answer 405
after it. -/
def comment_detail (s : Store) (requester : Option Nat) (m : Method)
    (comment_id : Nat) (body : CommentBody) : Response × Store :=
  match requester with
  | none => (⟨403, RespBody.detailMsg notAuthMsg⟩, s)
  | some u =>
    match m with
    | Method.PUT => commentDetailBody s u Method.PUT comment_id body
    | Method.DELETE => commentDetailBody s u Method.DELETE comment_id body
    | _ => (⟨405, RespBody.empty⟩, s)

/-- One request to any of the four routed endpoints (`urls.py`). -/
inductive Request where
  | postsCol (m : Method) (body : PostBody)
  | postItem (m : Method) (pid : Nat) (body : PostBody)
  | commentsCol (m : Method) (pid : Nat) (body : CommentBody)
  | commentItem (m : Method) (cid : Nat) (body : CommentBody)
deriving Repr, DecidableEq

/-- Route a request to its handler. -/
def handle (s : Store) (requester : Option Nat) (now : Nat) :
    Request → Response × Store
  | Request.postsCol m b => postListCreateView s requester m b now
  | Request.postItem m pid b => postDetailView s requester m pid b now
  | Request.commentsCol m pid b => post_comments s requester m pid b now
  | Request.commentItem m cid b => comment_detail s requester m cid b

/-! ### Concrete fixtures (used by witnesses and counterexamples) -/

def aliceU : User := ⟨1, "alice", "alice@example.com"⟩

def bobU : User := ⟨2, "bob", "bob@example.com"⟩

def post10 : Post := ⟨10, "Test Post", "Test content for the post", 1, 5, 5⟩

def comment20 : Comment := ⟨20, 10, 1, "Test comment", 6⟩

/-- A small store: two users, one post by alice carrying one comment. -/
def s0 : Store := ⟨[aliceU, bobU], [post10], [comment20], 11, 21⟩

/-! ### Claims -/

/-- C3: each of the three field validators fails with its
`ValidationError` message exactly when the trimmed length of the input is
below the minimum (title 2, post content 5, comment content 2), and on
success returns the original untrimmed input unchanged. -/
theorem C3_field_validators (v : String) :
    (validate_title v
      = if 2 ≤ (pyStrip v).length then Except.ok v else Except.error titleMinMsg)
  ∧ (validate_content v
      = if 5 ≤ (pyStrip v).length then Except.ok v else Except.error contentMinMsg)
  ∧ (validate_comment_content v
      = if 2 ≤ (pyStrip v).length then Except.ok v else Except.error commentMinMsg) := by
  refine ⟨?_, ?_, ?_⟩
  · unfold validate_title
    rcases Nat.lt_or_ge (pyStrip v).length 2 with h | h
    · rw [if_pos h, if_neg (by omega)]
    · rw [if_neg (by omega), if_pos h]
  · unfold validate_content
    rcases Nat.lt_or_ge (pyStrip v).length 5 with h | h
    · rw [if_pos h, if_neg (by omega)]
    · rw [if_neg (by omega), if_pos h]
  · unfold validate_comment_content
    rcases Nat.lt_or_ge (pyStrip v).length 2 with h | h
    · rw [if_pos h, if_neg (by omega)]
    · rw [if_neg (by omega), if_pos h]

/-- C1: on authenticated post creation and comment creation the stored
entity's author is the authenticated requester, and the handlers' results
do not depend on a client-supplied `author` field in the body. -/
theorem C1_author_forced (s : Store) (u : Nat) (pb : PostBody)
    (cb : CommentBody) (pid now : Nat) :
    (∀ p ∈ (postListCreateView s (some u) Method.POST pb now).2.posts,
        p ∉ s.posts → p.author = u)
  ∧ (∀ c ∈ (post_comments s (some u) Method.POST pid cb now).2.comments,
        c ∉ s.comments → c.author = u)
  ∧ (∀ a, postListCreateView s (some u) Method.POST { pb with author := a } now
        = postListCreateView s (some u) Method.POST { pb with author := none } now)
  ∧ (∀ a p' t', post_comments s (some u) Method.POST pid
          { cb with author := a, post := p', created_at := t' } now
        = post_comments s (some u) Method.POST pid
          { cb with author := none, post := none, created_at := none } now) := by
  refine ⟨?_, ?_, ?_, ?_⟩
  · intro p hp hnp
    unfold postListCreateView at hp
    simp only [Method.isSafe, Option.isSome, Bool.false_or, if_true] at hp
    split at hp
    · simp at hp
      exact absurd hp hnp
    · simp at hp
      rcases hp with hp | hp
      · exact absurd hp hnp
      · subst hp
        rfl
  · intro c hc hnc
    unfold post_comments at hc
    simp only [Method.isSafe, Option.isSome, Bool.false_or, if_true] at hc
    split at hc
    · exact absurd hc hnc
    · split at hc
      · exact absurd hc hnc
      · simp at hc
        rcases hc with hc | hc
        · exact absurd hc hnc
        · subst hc
          rfl
  · intro a
    rfl
  · intro a p' t'
    rfl

/-- Witness for C1: bob (user 2) creates a post over fixture `s0` while
the body claims author 1; the stored row's author is 2. -/
theorem C1_author_forced_witness :
    (Post.mk 11 "ab" "hello" 2 7 7).author = 2 :=
  (C1_author_forced s0 2 ⟨some "ab", some "hello", some 1⟩
      ⟨some "hi", some 1, none, none⟩ 10 7).1
    (Post.mk 11 "ab" "hello" 2 7 7) (by decide) (by decide)

/-- C2: an authenticated requester who is not the comment's author gets
403 with the view's explicit error message on both PUT and DELETE, before
any verb-specific logic, and the store is unchanged. -/
theorem C2_owner_gate (s : Store) (u cid : Nat) (c : Comment)
    (m : Method) (body : CommentBody)
    (hc : findComment s cid = some c) (hne : c.author ≠ u)
    (hm : m = Method.PUT ∨ m = Method.DELETE) :
    comment_detail s (some u) m cid body
      = (⟨403, RespBody.errorMsg ownerOnlyMsg⟩, s) := by
  rcases hm with rfl | rfl <;>
    simp [comment_detail, commentDetailBody, hc, bne_iff_ne, hne]

/-- Witness for C2: bob (user 2) tries to PUT alice's comment 20 in `s0`
and is rejected 403 with the ownership message, store unchanged. -/
theorem C2_owner_gate_witness :
    comment_detail s0 (some 2) Method.PUT 20 ⟨some "hey", none, none, none⟩
      = (⟨403, RespBody.errorMsg ownerOnlyMsg⟩, s0) :=
  C2_owner_gate s0 2 20 comment20 Method.PUT ⟨some "hey", none, none, none⟩
    (by decide) (by decide) (Or.inl rfl)

/-- C4 as stated is false: in `s0` no post 999 exists, yet an anonymous
PUT to the post item endpoint is answered 403 by the framework's
authentication gate, which runs before the lookup — not 404. -/
theorem C4_counterexample :
    findPost s0 999 = none
  ∧ (postDetailView s0 none Method.PUT 999 {} 7).1.status = 403
  ∧ ¬ (postDetailView s0 none Method.PUT 999 {} 7).1.status = 404 := by
  decide

/-- C4 (amended): for authenticated requesters the entity lookup happens
before the ownership check — a nonexistent id yields 404 and 403 is only
returned when the target exists; anonymous mutating requests, however,
are rejected 403 by the authentication gate before any lookup. -/
theorem C4_lookup_before_ownership (s : Store) (u pid cid now : Nat)
    (m : Method) (pb : PostBody) (cb : CommentBody) :
    ((m = Method.GET ∨ m = Method.PUT ∨ m = Method.PATCH ∨ m = Method.DELETE) →
       findPost s pid = none →
       (postDetailView s (some u) m pid pb now).1.status = 404)
  ∧ ((postDetailView s (some u) m pid pb now).1.status = 403 →
       ∃ p, findPost s pid = some p)
  ∧ ((m = Method.PUT ∨ m = Method.DELETE) → findComment s cid = none →
       (comment_detail s (some u) m cid cb).1.status = 404)
  ∧ ((comment_detail s (some u) m cid cb).1.status = 403 →
       ∃ c, findComment s cid = some c)
  ∧ ((m = Method.PUT ∨ m = Method.PATCH ∨ m = Method.DELETE) →
       (postDetailView s none m pid pb now).1.status = 403)
  ∧ ((m = Method.PUT ∨ m = Method.DELETE) →
       (comment_detail s none m cid cb).1.status = 403) := by
  refine ⟨?_, ?_, ?_, ?_, ?_, ?_⟩
  · rintro (rfl | rfl | rfl | rfl) hnp <;>
      simp [postDetailView, postMutateGate, hnp]
  · intro h
    cases m
    case GET =>
      unfold postDetailView at h
      rcases hfp : findPost s pid with _ | p
      · rw [hfp] at h
        simp at h
      · exact ⟨p, rfl⟩
    case POST =>
      unfold postDetailView at h
      simp at h
    case PUT =>
      unfold postDetailView postMutateGate at h
      rcases hfp : findPost s pid with _ | p
      · rw [hfp] at h
        simp at h
      · exact ⟨p, rfl⟩
    case PATCH =>
      unfold postDetailView postMutateGate at h
      rcases hfp : findPost s pid with _ | p
      · rw [hfp] at h
        simp at h
      · exact ⟨p, rfl⟩
    case DELETE =>
      unfold postDetailView postMutateGate at h
      rcases hfp : findPost s pid with _ | p
      · rw [hfp] at h
        simp at h
      · exact ⟨p, rfl⟩
  · rintro (rfl | rfl) hnc <;>
      simp [comment_detail, commentDetailBody, hnc]
  · intro h
    cases m
    case PUT =>
      unfold comment_detail commentDetailBody at h
      rcases hfc : findComment s cid with _ | c
      · rw [hfc] at h
        simp at h
      · exact ⟨c, rfl⟩
    case DELETE =>
      unfold comment_detail commentDetailBody at h
      rcases hfc : findComment s cid with _ | c
      · rw [hfc] at h
        simp at h
      · exact ⟨c, rfl⟩
    all_goals
      unfold comment_detail at h
      simp at h
  · rintro (rfl | rfl | rfl) <;> simp [postDetailView, postMutateGate]
  · rintro (rfl | rfl) <;> simp [comment_detail]

/-- Witness for C4 (amended): an authenticated PUT to absent post id 999
gets 404, while an anonymous PUT to existing comment 20 gets 403. -/
theorem C4_lookup_before_ownership_witness :
    (postDetailView s0 (some 2) Method.PUT 999 {} 7).1.status = 404
  ∧ (comment_detail s0 none Method.PUT 20 {}).1.status = 403 :=
  ⟨(C4_lookup_before_ownership s0 2 999 888 7 Method.PUT {} {}).1
      (Or.inr (Or.inl rfl)) (by decide),
   (C4_lookup_before_ownership s0 2 999 20 7 Method.PUT {} {}).2.2.2.2.2
      (Or.inl rfl)⟩

/-- C5 as stated is false: a successful authenticated POST to the posts
collection in `s0` answers 201, but its body is the create serializer's
`{title, content}` projection, not the full post detail shape. -/
theorem C5_counterexample :
    (postListCreateView s0 (some 1) Method.POST
        ⟨some "ab", some "hello", none⟩ 7).1.status = 201
  ∧ ((postListCreateView s0 (some 1) Method.POST
        ⟨some "ab", some "hello", none⟩ 7).1.body).isFullPostDetail = false := by
  decide

/-- A successful `validate_title` returns its argument unchanged. -/
theorem validate_title_ok (y w : String) (h : validate_title y = Except.ok w) :
    w = y := by
  unfold validate_title at h
  split at h
  · cases h
  · injection h with h'
    exact h'.symm

/-- A successful `validate_content` returns its argument unchanged. -/
theorem validate_content_ok (y w : String)
    (h : validate_content y = Except.ok w) : w = y := by
  unfold validate_content at h
  split at h
  · cases h
  · injection h with h'
    exact h'.symm

/-- A successful title field run yields exactly the stripped input: the
`trim_whitespace` strip of `to_internal_value`, passed through the
`validate_title` hook unchanged. -/
theorem runTitleField_ok (x w : String)
    (h : runTitleField (some x) = Except.ok w) : w = pyStrip x := by
  simp only [runTitleField] at h
  split at h
  · cases h
  · split at h
    · cases h
    · split at h
      · cases h
      · rename_i w' heq
        injection h with h'
        subst h'
        exact validate_title_ok _ _ heq

/-- A successful content field run yields exactly the stripped input,
for any hook that returns its argument on success. -/
theorem runContentField_ok (name x w : String)
    (hook : String → Except String String)
    (hhook : ∀ y w', hook y = Except.ok w' → w' = y)
    (h : runContentField name (some x) hook = Except.ok w) : w = pyStrip x := by
  simp only [runContentField] at h
  split at h
  · cases h
  · split at h
    · cases h
    · rename_i w' heq
      injection h with h'
      subst h'
      exact hhook _ _ heq

/-- C5 (amended): a successful authenticated POST to the posts
collection — one whose title and content pass the serializer's field
pipeline (required, non-blank, title at most 200 characters trimmed, and
the min-length hooks) — responds 201 with the create serializer's
reduced projection: exactly its declared fields `title` and `content`,
carrying the trimmed values that are also what is stored, not the full
post detail representation. -/
theorem C5_create_reduced_response (s : Store) (u now : Nat) (b : PostBody)
    (t c t' c' : String)
    (ht : b.title = some t) (hc : b.content = some c)
    (hT : runTitleField b.title = Except.ok t')
    (hC : runContentField "content" b.content validate_content = Except.ok c') :
    postListCreateView s (some u) Method.POST b now
      = (⟨201, RespBody.createData [("title", t'), ("content", c')]⟩,
         { s with posts := s.posts ++ [⟨s.nextPostId, t', c', u, now, now⟩],
                  nextPostId := s.nextPostId + 1 })
  ∧ t' = pyStrip t
  ∧ c' = pyStrip c
  ∧ ((postListCreateView s (some u) Method.POST b now).1.body).isFullPostDetail
      = false := by
  have hrun : postSerializerRun b = Except.ok (t', c') := by
    simp only [postSerializerRun, hT, hC]
  refine ⟨?_, ?_, ?_, ?_⟩
  · simp [postListCreateView, hrun]
  · rw [ht] at hT
    exact runTitleField_ok t t' hT
  · rw [hc] at hC
    exact runContentField_ok "content" c c' validate_content validate_content_ok hC
  · simp [postListCreateView, hrun, RespBody.isFullPostDetail]

/-- Witness for C5 (amended): bob creates a post over `s0` with
whitespace-padded title and content; the 201 response carries only
`title` and `content` with the trimmed values, which are stored. -/
theorem C5_create_reduced_response_witness :
    postListCreateView s0 (some 2) Method.POST
        ⟨some " ab ", some " hello ", some 1⟩ 7
      = (⟨201, RespBody.createData [("title", "ab"), ("content", "hello")]⟩,
         { s0 with posts := s0.posts ++ [⟨s0.nextPostId, "ab", "hello", 2, 7, 7⟩],
                   nextPostId := s0.nextPostId + 1 })
  ∧ "ab" = pyStrip " ab "
  ∧ "hello" = pyStrip " hello "
  ∧ ((postListCreateView s0 (some 2) Method.POST
        ⟨some " ab ", some " hello ", some 1⟩ 7).1.body).isFullPostDetail = false :=
  C5_create_reduced_response s0 2 7 ⟨some " ab ", some " hello ", some 1⟩
    " ab " " hello " "ab" "hello" rfl rfl rfl rfl

/-- C6 as stated is false: after alice deletes post 10 in `s0` (which
cascades away comment 20), an anonymous request addressing former
comment id 20 is answered 403 by the authentication gate, not 404. -/
theorem C6_counterexample :
    (postDetailView s0 (some 1) Method.DELETE 10 {} 7).1.status = 204
  ∧ findComment (postDetailView s0 (some 1) Method.DELETE 10 {} 7).2 20 = none
  ∧ (comment_detail (postDetailView s0 (some 1) Method.DELETE 10 {} 7).2
        none Method.PUT 20 {}).1.status = 403
  ∧ ¬ (comment_detail (postDetailView s0 (some 1) Method.DELETE 10 {} 7).2
        none Method.PUT 20 {}).1.status = 404 := by
  decide

/-- C6 (amended): an author's DELETE of post P removes P and every
comment whose post reference is P: afterwards a GET of P's id is 404 for
any requester, any authenticated request addressing a former comment's id
is 404 (anonymous ones are rejected 403 by the authentication gate, as
always on this endpoint), and comments of other posts are unaffected. -/
theorem C6_cascade_delete (s : Store) (u pid now v : Nat) (p : Post)
    (pb pb' : PostBody) (cb : CommentBody) (r' : Option Nat) (m : Method)
    (hp : findPost s pid = some p) (hu : p.author = u)
    (hnd : (s.comments.map Comment.id).Nodup) :
    ((postDetailView s (some u) Method.DELETE pid pb now).1
        = ⟨204, RespBody.empty⟩)
  ∧ ((postDetailView (postDetailView s (some u) Method.DELETE pid pb now).2
        r' Method.GET pid pb' now).1.status = 404)
  ∧ (∀ c ∈ s.comments, c.post = pid → (m = Method.PUT ∨ m = Method.DELETE) →
       (comment_detail (postDetailView s (some u) Method.DELETE pid pb now).2
          (some v) m c.id cb).1.status = 404)
  ∧ (∀ c ∈ s.comments, c.post ≠ pid →
       c ∈ (postDetailView s (some u) Method.DELETE pid pb now).2.comments) := by
  have hp' : s.posts.find? (fun q => q.id == pid) = some p := hp
  have hpid : p.id = pid := by
    have := List.find?_some hp'
    simpa using this
  have hD : postDetailView s (some u) Method.DELETE pid pb now
      = (⟨204, RespBody.empty⟩,
         { s with posts := s.posts.filter (fun q => q.id != p.id),
                  comments := s.comments.filter (fun c => c.post != p.id) }) := by
    simp [postDetailView, postMutateGate, hp, hu]
  have hinj : ∀ x ∈ s.comments, ∀ y ∈ s.comments, x.id = y.id → x = y := by
    intro x hx y hy hxy
    exact List.inj_on_of_nodup_map hnd hx hy hxy
  refine ⟨?_, ?_, ?_, ?_⟩
  · rw [hD]
  · rw [hD]
    have hnone :
        (s.posts.filter (fun q => q.id != p.id)).find? (fun q => q.id == pid)
          = none := by
      apply List.find?_eq_none.mpr
      intro q hq
      have hq' := (List.mem_filter.mp hq).2
      simp only [bne_iff_ne, ne_eq] at hq'
      simp [hpid ▸ hq']
    simp [postDetailView, findPost, hnone]
  · intro c hcmem hcpost hm
    have hnone :
        (s.comments.filter (fun q => q.post != p.id)).find? (fun q => q.id == c.id)
          = none := by
      apply List.find?_eq_none.mpr
      intro q hq
      rcases List.mem_filter.mp hq with ⟨hqmem, hqpost⟩
      simp only [bne_iff_ne, ne_eq] at hqpost
      have : q.id ≠ c.id := by
        intro hid
        exact hqpost ((hinj q hqmem c hcmem hid) ▸ (hpid ▸ hcpost))
      simp [this]
    rw [hD]
    rcases hm with rfl | rfl <;>
      simp [comment_detail, commentDetailBody, findComment, hnone]
  · intro c hcmem hcpost
    rw [hD]
    refine List.mem_filter.mpr ⟨hcmem, ?_⟩
    simp [bne_iff_ne, hpid ▸ hcpost]

/-- Witness for C6 (amended): alice deletes post 10 in `s0`; bob's PUT to
former comment 20 afterwards gets 404. -/
theorem C6_cascade_delete_witness :
    (comment_detail (postDetailView s0 (some 1) Method.DELETE 10 {} 7).2
        (some 2) Method.PUT 20 {}).1.status = 404 :=
  (C6_cascade_delete s0 1 10 7 2 post10 {} {} {} (some 9) Method.PUT
      (by decide) (by decide) (by decide)).2.2.1 comment20
    (by decide) (by decide) (Or.inl rfl)

/-- Every handler either leaves the store untouched or answers one of the
success statuses 200/201/204 (branch enumeration over all four views). -/
theorem handle_store_or_success (s : Store) (r : Option Nat) (now : Nat)
    (req : Request) :
    (handle s r now req).2 = s
  ∨ (handle s r now req).1.status = 200
  ∨ (handle s r now req).1.status = 201
  ∨ (handle s r now req).1.status = 204 := by
  rcases req with ⟨m, b⟩ | ⟨m, pid, b⟩ | ⟨m, pid, b⟩ | ⟨m, cid, b⟩ <;>
    cases m <;>
    simp only [handle, postListCreateView, postDetailView, post_comments,
      comment_detail, postMutateGate, commentDetailBody] <;>
    (repeat' split) <;> simp

/-- C7: every rejected request — 400 validation, 403 authorization or
404 unknown id — leaves the data store unchanged. -/
theorem C7_rejected_leaves_store (s : Store) (r : Option Nat) (now : Nat)
    (req : Request)
    (h : (handle s r now req).1.status = 400
       ∨ (handle s r now req).1.status = 403
       ∨ (handle s r now req).1.status = 404) :
    (handle s r now req).2 = s := by
  rcases handle_store_or_success s r now req with hs | hs | hs | hs
  · exact hs
  all_goals
    exfalso
    rcases h with h | h | h <;> omega

/-- Witness for C7: an anonymous POST to the posts collection over `s0`
is rejected 403 and the store is exactly `s0` afterwards. -/
theorem C7_rejected_leaves_store_witness :
    (handle s0 none 7
        (Request.postsCol Method.POST ⟨some "ab", some "hello", none⟩)).2 = s0 :=
  C7_rejected_leaves_store s0 none 7
    (Request.postsCol Method.POST ⟨some "ab", some "hello", none⟩)
    (Or.inr (Or.inl (by decide)))

/-- C8: listing the posts collection returns the posts with
non-increasing `created_at` (newest first), and listing a post's comments
returns them with non-decreasing `created_at` (oldest first). -/
theorem C8_listing_order (s : Store) (r : Option Nat) (now pid : Nat)
    (pb : PostBody) (cb : CommentBody) (p : Post)
    (hp : findPost s pid = some p) :
    ((postListCreateView s r Method.GET pb now).1
        = ⟨200, RespBody.postList ((postsOrdered s).map (postListRepr s))⟩)
  ∧ (((postsOrdered s).map (postListRepr s)).Pairwise
        (fun a b => b.created_at ≤ a.created_at))
  ∧ ((post_comments s r Method.GET pid cb now).1
        = ⟨200, RespBody.commentList ((commentsOfPost s p.id).map (commentRepr s))⟩)
  ∧ (((commentsOfPost s p.id).map (commentRepr s)).Pairwise
        (fun a b => a.created_at ≤ b.created_at)) := by
  refine ⟨?_, ?_, ?_, ?_⟩
  · simp [postListCreateView, Method.isSafe]
  · have hs : List.Pairwise postOrder (postsOrdered s) :=
      List.sorted_insertionSort postOrder s.posts
    exact List.Pairwise.map (postListRepr s) (fun a b h => h) hs
  · simp [post_comments, Method.isSafe, hp]
  · have hs : List.Pairwise commentOrder (commentsOfPost s p.id) :=
      List.sorted_insertionSort commentOrder
        (s.comments.filter (fun c => c.post == p.id))
    exact List.Pairwise.map (commentRepr s) (fun a b h => h) hs

/-- Witness for C8: the two GET listings over `s0` have the stated bodies
and orderings. -/
theorem C8_listing_order_witness :
    ((postListCreateView s0 none Method.GET {} 7).1
        = ⟨200, RespBody.postList ((postsOrdered s0).map (postListRepr s0))⟩)
  ∧ (((postsOrdered s0).map (postListRepr s0)).Pairwise
        (fun a b => b.created_at ≤ a.created_at))
  ∧ ((post_comments s0 none Method.GET 10 {} 7).1
        = ⟨200, RespBody.commentList
            ((commentsOfPost s0 post10.id).map (commentRepr s0))⟩)
  ∧ (((commentsOfPost s0 post10.id).map (commentRepr s0)).Pairwise
        (fun a b => a.created_at ≤ b.created_at)) :=
  C8_listing_order s0 none 7 10 {} {} post10 (by decide)

/-- C9: a successful PUT by a comment's author changes only that
comment's `content`: every stored row keeps its id, author, post
reference and `created_at`, the handler ignores body values for
author/post/created_at, and the response is the updated comment's
representation. -/
theorem C9_comment_put_frame (s : Store) (u cid : Nat) (c : Comment)
    (b : CommentBody) (v : String)
    (hc : findComment s cid = some c) (hu : c.author = u)
    (hv : commentSerializerRun b = Except.ok v)
    (hnd : (s.comments.map Comment.id).Nodup) :
    (comment_detail s (some u) Method.PUT cid b
      = (⟨200, RespBody.commentData (commentRepr s { c with content := v })⟩,
         { s with comments :=
             s.comments.map (fun q => if q.id = c.id then { q with content := v } else q) }))
  ∧ (∀ a p' t', comment_detail s (some u) Method.PUT cid ⟨b.content, a, p', t'⟩
       = comment_detail s (some u) Method.PUT cid ⟨b.content, none, none, none⟩) := by
  have hc' : s.comments.find? (fun q => q.id == cid) = some c := hc
  have hcmem : c ∈ s.comments := List.mem_of_find?_eq_some hc'
  have hinj : ∀ x ∈ s.comments, ∀ y ∈ s.comments, x.id = y.id → x = y := by
    intro x hx y hy hxy
    exact List.inj_on_of_nodup_map hnd hx hy hxy
  have hmap : s.comments.map
        (fun q => if q.id == c.id then { c with content := v } else q)
      = s.comments.map
        (fun q => if q.id = c.id then { q with content := v } else q) := by
    apply List.map_congr_left
    intro q hq
    by_cases h : q.id = c.id
    · have hqc : q = c := hinj q hq c hcmem h
      subst hqc
      simp
    · simp [h]
  have hbne : (c.author != u) = false := by simp [hu]
  refine ⟨?_, fun a p' t' => rfl⟩
  simp only [comment_detail, commentDetailBody, hc, hv, hbne,
    Bool.false_eq_true, if_false]
  rw [hmap]
  rfl

/-- Witness for C9: alice PUTs new content to her comment 20 in `s0`;
only that comment's content changes and the response carries the updated
representation. -/
theorem C9_comment_put_frame_witness :
    comment_detail s0 (some 1) Method.PUT 20 ⟨some "edited!", some 2, some 99, some 42⟩
      = (⟨200, RespBody.commentData (commentRepr s0 { comment20 with content := "edited!" })⟩,
         { s0 with comments :=
             s0.comments.map (fun q => if q.id = comment20.id then { q with content := "edited!" } else q) }) :=
  (C9_comment_put_frame s0 1 20 comment20 ⟨some "edited!", some 2, some 99, some 42⟩
      "edited!" rfl rfl rfl (by decide)).1

/-- C10: comment update is a full update: a PUT by the comment's author
whose body lacks the `content` key fails 400 reporting `content` as
required, and the store — hence the comment's previous content — is
unchanged; no fallback to the stored value happens. -/
theorem C10_put_requires_content (s : Store) (u cid : Nat) (c : Comment)
    (b : CommentBody)
    (hc : findComment s cid = some c) (hu : c.author = u)
    (hb : b.content = none) :
    comment_detail s (some u) Method.PUT cid b
      = (⟨400, RespBody.fieldErrors [("content", requiredMsg)]⟩, s) := by
  have hbne : (c.author != u) = false := by simp [hu]
  have hv : commentSerializerRun b = Except.error [("content", requiredMsg)] := by
    simp [commentSerializerRun, runContentField, hb]
  simp [comment_detail, commentDetailBody, hc, hbne, hv]

/-- Witness for C10: alice PUTs a body without `content` to her comment
20 in `s0`: 400 naming `content`, store unchanged. -/
theorem C10_put_requires_content_witness :
    comment_detail s0 (some 1) Method.PUT 20 ⟨none, none, none, some 9⟩
      = (⟨400, RespBody.fieldErrors [("content", requiredMsg)]⟩, s0) :=
  C10_put_requires_content s0 1 20 comment20 ⟨none, none, none, some 9⟩ rfl rfl rfl
